import Mathlib

/-!
Shallow embedding of `app/sensors/repository.py`: a sensor coordinator over
three stores — a relational identity store (PostgreSQL via SQLAlchemy), a
document catalog (MongoDB) and a live-reading cache (Redis) — together with
proofs about its multi-store operations.
-/

namespace SensorRepo

/-- JSON-style values appearing in telemetry payloads and composite views
(numbers and strings; `json.dumps`/`json.loads` round these). -/
inductive JVal where
  | jnum : Int → JVal
  | jstr : String → JVal
deriving DecidableEq

/-- A Python dict of field names to values (`data.dict()` in `record_data`,
the deserialized reading in `get_data`). Insertion-ordered association list,
first binding wins on lookup, as for a Python dict with unique keys. -/
abbrev Payload := List (String × JVal)

/-- Python dict lookup `d[k]` (first binding for key `k`). -/
def alookup {α : Type} (k : String) : List (String × α) → Option α
  | [] => none
  | (k', v) :: rest => if k' = k then some v else alookup k rest

/-- Replace the first binding of `k` in place, used when `k` is already
present (Python dict assignment keeps the key's position). -/
def setInPlace {α : Type} : List (String × α) → String → α → List (String × α)
  | [], _, _ => []
  | (k', v') :: rest, k, v =>
      if k' = k then (k, v) :: rest else (k', v') :: setInPlace rest k v

/-- Python dict assignment `d[k] = v`: update in place when present,
append at the end when absent. -/
def dictSet {α : Type} (d : List (String × α)) (k : String) (v : α) :
    List (String × α) :=
  if (alookup k d).isSome then setInPlace d k v else d ++ [(k, v)]

/-- Python dict merge `\x7b**a, **b\x7d`: start from `a` and assign every
binding of `b` in order, `b` winning collisions. -/
def dictMerge (a b : Payload) : Payload :=
  b.foldl (fun acc kv => dictSet acc kv.1 kv.2) a

/-- Key removal (Redis `DELETE`): drops every binding of `k`; a no-op when
the key is absent. -/
def adelete {α : Type} (k : String) : List (String × α) → List (String × α)
  | [] => []
  | (k', v) :: rest =>
      if k' = k then adelete k rest else (k', v) :: adelete k rest

/-- Keep only the bindings of key `k` (used to state that an operation reads
no other key). -/
def restrictToKey {α : Type} : List (String × α) → String → List (String × α)
  | [], _ => []
  | (k', v) :: rest, k =>
      if k' = k then (k', v) :: restrictToKey rest k else restrictToKey rest k

/-- A value stored in the live-reading cache. `json.dumps` of a payload dict
always yields bytes that `json.loads` accepts, embedded as `serialized`;
any other bytes under the key (written outside `record_data`) are `garbage`,
on which deserialization fails. -/
inductive RVal where
  | serialized : Payload → RVal
  | garbage : String → RVal
deriving DecidableEq

/-- The Redis store: a map from key strings to stored values. -/
abbrev Redis := List (String × RVal)

/-- `json.loads(stored.decode())`: succeeds exactly on values produced by
`json.dumps` of a dict; raises `json.JSONDecodeError` (here `none`) on
corrupt bytes. -/
def jsonLoads : RVal → Option Payload
  | .serialized p => some p
  | .garbage _ => none

/-- `models.Sensor`: one relational identity row, `id` store-assigned. -/
structure Sensor where
  id : Nat
  name : String
deriving DecidableEq

/-- The relational identity store: its rows plus the autoincrement counter
the store uses to assign the next primary key. -/
structure IdentityStore where
  rows : List Sensor
  nextId : Nat
deriving DecidableEq

/-- GeoJSON point embedded in a catalog document:
`\x7b"type": "Point", "coordinates": [longitude, latitude]\x7d`. -/
structure GeoPoint where
  type : String
  coordinates : List Float

/-- One MongoDB document of the `sensors` collection, as built in
`create_sensor` (the store-assigned `_id` is irrelevant to every claim and
omitted). -/
structure CatalogDoc where
  id_sensor : Nat
  type : String
  mac_address : String
  manufacturer : String
  model : String
  serie_number : String
  firmware_version : String
  location : GeoPoint

/-- The MongoDB `sensors` collection; `insert_one` appends. -/
abbrev Catalog := List CatalogDoc

/-- The three store handles a coordinator call receives. -/
structure AppState where
  db : IdentityStore
  mongo : Catalog
  redis : Redis

/-- `schemas.SensorCreate`: the validated creation request. -/
structure SensorCreate where
  name : String
  latitude : Float
  longitude : Float
  type : String
  mac_address : String
  manufacturer : String
  model : String
  serie_number : String
  firmware_version : String

/-- First row with the given primary key (the relational store's `filter` on
`id` followed by `first()`). -/
def findRowById : List Sensor → Nat → Option Sensor
  | [], _ => none
  | r :: rest, id => if r.id = id then some r else findRowById rest id

/-- First row with the given name (the relational store's `filter` on `name`
followed by `first()`). -/
def findRowByName : List Sensor → String → Option Sensor
  | [], _ => none
  | r :: rest, n => if r.name = n then some r else findRowByName rest n

/-- `get_sensor`: `db.query(Sensor).filter(Sensor.id == sensor_id).first()`. -/
def get_sensor (db : IdentityStore) (sensor_id : Nat) : Option Sensor :=
  findRowById db.rows sensor_id

/-- `get_sensor_by_name`: first row whose name matches. -/
def get_sensor_by_name (db : IdentityStore) (name : String) : Option Sensor :=
  findRowByName db.rows name

/-- Modelled from the spec: the identity-store insert behind
`models.Sensor(name=...)` / `db.add` / `db.commit` / `db.refresh`
(`models.py` is not under `src/`). Per §4.1 the store assigns a fresh
autoincrement id and does not enforce name uniqueness, so the insert always
succeeds and returns the new row. -/
def identityCreate (db : IdentityStore) (name : String) : IdentityStore × Sensor :=
  let row : Sensor := ⟨db.nextId, name⟩
  (⟨db.rows ++ [row], db.nextId + 1⟩, row)

/-- The document `create_sensor` builds for the catalog insert, with
`location.coordinates` listing longitude first. -/
def catalogDocOf (row_id : Nat) (sensor : SensorCreate) : CatalogDoc :=
  { id_sensor := row_id
    type := sensor.type
    mac_address := sensor.mac_address
    manufacturer := sensor.manufacturer
    model := sensor.model
    serie_number := sensor.serie_number
    firmware_version := sensor.firmware_version
    location := { type := "Point"
                  coordinates := [sensor.longitude, sensor.latitude] } }

/-- `create_sensor`: step 1 inserts and commits the identity row (SQL),
step 2 inserts the catalog document (Mongo `insert_one` appends), and the
new identity row is returned. -/
def create_sensor (st : AppState) (sensor : SensorCreate) : AppState × Sensor :=
  let step1 := identityCreate st.db sensor.name
  let db_sensor := step1.2
  let doc := catalogDocOf db_sensor.id sensor
  ({ db := step1.1, mongo := st.mongo ++ [doc], redis := st.redis }, db_sensor)

/-- An execution of `create_sensor` that stops (crashes) after completing its
first `k` store writes: `k = 0` before the identity commit, `k = 1` after the
identity insert committed but before the catalog `insert_one`, `k ≥ 2` the
complete run. The source performs the identity write strictly before the
catalog write, which this step order embeds. -/
def create_sensor_steps (st : AppState) (sensor : SensorCreate) : Nat → AppState
  | 0 => st
  | 1 => { st with db := (identityCreate st.db sensor.name).1 }
  | _ + 2 => (create_sensor st sensor).1

/-- The Redis key f-string of `record_data` (line 72). -/
def record_data_key (sensor_id : Nat) : String :=
  "sensor:" ++ toString sensor_id ++ ":data"

/-- The Redis key f-string of `get_data` (line 89). -/
def get_data_key (sensor_id : Nat) : String :=
  "sensor:" ++ toString sensor_id ++ ":data"

/-- The Redis key f-string of `delete_sensor` (line 144). -/
def delete_sensor_key (sensor_id : Nat) : String :=
  "sensor:" ++ toString sensor_id ++ ":data"

/-- `record_data`: `redis.set(f"sensor:...:data", json.dumps(data.dict()))`.
It receives only the cache handle and returns the updated cache. -/
def record_data (redis : Redis) (sensor_id : Nat) (data : Payload) : Redis :=
  dictSet redis (record_data_key sensor_id) (RVal.serialized data)

/-- `record_data` as the coordinator runs it: the operation only receives the
cache handle, so the identity store and the catalog pass through untouched. -/
def record_data_app (st : AppState) (sensor_id : Nat) (data : Payload) :
    AppState :=
  { st with redis := record_data st.redis sensor_id data }

/-- How `get_data` fails, one constructor per distinct Python exception:
`notFound` is the explicit `HTTPException(404, "Sensor not found")`;
`noReadingYet` is the `AttributeError` from `sensorDataDB.decode()` when
`redis.get` returned `None`; `corruptReading` is `json.JSONDecodeError`
from `json.loads` on present-but-corrupt bytes. -/
inductive GetDataError where
  | notFound
  | noReadingYet
  | corruptReading
deriving DecidableEq

/-- `get_data`: identity lookup first (404 when absent), then the cache read,
then deserialization, then the merge that overwrites the payload's `id` and
`name` with the identity row's values. -/
def get_data (redis : Redis) (sensor_id : Nat) (db : IdentityStore) :
    Except GetDataError Payload :=
  match get_sensor db sensor_id with
  | none => .error .notFound
  | some db_sensor =>
    match alookup (get_data_key sensor_id) redis with
    | none => .error .noReadingYet
    | some stored =>
      match jsonLoads stored with
      | none => .error .corruptReading
      | some sensor_data =>
        .ok (dictSet (dictSet sensor_data "id" (JVal.jnum db_sensor.id))
              "name" (JVal.jstr db_sensor.name))

/-- The `__dict__` of an identity row as the join in `get_sensors_near` uses
it: its `id` and `name` columns (the SQLAlchemy `_sa_instance_state` slot is
irrelevant to every claim and omitted). -/
def identityDict (row : Sensor) : Payload :=
  [("id", JVal.jnum row.id), ("name", JVal.jstr row.name)]

/-- How the per-document join loop of `get_sensors_near` fails, one
constructor per distinct Python exception: `attributeErrorNoneDict` is the
`AttributeError` from `None.__dict__` when `get_sensor` found no identity
row for `doc.id_sensor`; `dataError e` is the exception `get_data` raises. -/
inductive NearError where
  | attributeErrorNoneDict
  | dataError : GetDataError → NearError
deriving DecidableEq

/-- The join loop of `get_sensors_near`: for each document, take the identity
row's `__dict__` (raising on `None`), call `get_data`, merge
`\x7b**sensor, **sensor_redis\x7d` and append. A raised exception aborts the
whole loop, discarding entries already accumulated. -/
def near_process (db : IdentityStore) (redis : Redis) :
    List CatalogDoc → Except NearError (List Payload)
  | [] => .ok []
  | doc :: rest =>
    match get_sensor db doc.id_sensor with
    | none => .error .attributeErrorNoneDict
    | some row =>
      match get_data redis doc.id_sensor db with
      | .error e => .error (.dataError e)
      | .ok sensor_redis =>
        match near_process db redis rest with
        | .error e => .error e
        | .ok sensors => .ok (dictMerge (identityDict row) sensor_redis :: sensors)

/-- `get_sensors_near`. The `$near` geospatial query (database/collection
selection, `create_index`, `collection.find`) is the document store's own
query mechanics, external to this layer; `nearby_sensors` is the list of
documents that query returned, nearest first. The coordinator's own logic is
the join loop and the final `sensors if sensors else []`. -/
def get_sensors_near (db : IdentityStore) (redis : Redis)
    (nearby_sensors : List CatalogDoc) : Except NearError (List Payload) :=
  match near_process db redis nearby_sensors with
  | .error e => .error e
  | .ok sensors => .ok (if sensors.isEmpty then [] else sensors)

/-- `delete_sensor`'s failure: the explicit `HTTPException(404)`. -/
inductive DeleteError where
  | notFound
deriving DecidableEq

/-- SQLAlchemy `db.delete(db_sensor)` for the first row matching the id. -/
def removeRowById : List Sensor → Nat → List Sensor
  | [], _ => []
  | r :: rest, id => if r.id = id then rest else r :: removeRowById rest id

/-- Mongo `delete_one(\x7b"id_sensor": sensor_id\x7d)`: removes the first
matching document, a no-op when none matches. -/
def catalogDeleteOne : Catalog → Nat → Catalog
  | [], _ => []
  | d :: rest, id => if d.id_sensor = id then rest else d :: catalogDeleteOne rest id

/-- Mongo `find_one(\x7b"id_sensor": sensor_id\x7d)` on the `sensors`
collection: the catalog lookup for one sensor's document (first match). -/
def catalogFind : Catalog → Nat → Option CatalogDoc
  | [], _ => none
  | d :: rest, id => if d.id_sensor = id then some d else catalogFind rest id

/-- `delete_sensor`: Redis delete first, then Mongo `delete_one`, both
unconditional; only then the identity query, raising 404 when the row is
absent, else deleting it and returning the deleted row. -/
def delete_sensor (st : AppState) (sensor_id : Nat) :
    AppState × Except DeleteError Sensor :=
  let redis' := adelete (delete_sensor_key sensor_id) st.redis
  let mongo' := catalogDeleteOne st.mongo sensor_id
  match get_sensor st.db sensor_id with
  | none => ({ st with redis := redis', mongo := mongo' }, .error .notFound)
  | some db_sensor =>
    ({ db := ⟨removeRowById st.db.rows sensor_id, st.db.nextId⟩,
       mongo := mongo', redis := redis' }, .ok db_sensor)

/-- Cross-store invariant of §3: every catalog document references an
identity row that exists. -/
def catalogConsistent (db : IdentityStore) (mongo : Catalog) : Prop :=
  ∀ doc ∈ mongo, ∃ row ∈ db.rows, row.id = doc.id_sensor

/-- Well-formedness of the identity store: every assigned primary key is
below the autoincrement counter, so the next assigned id is fresh. -/
def dbWF (db : IdentityStore) : Prop :=
  ∀ row ∈ db.rows, row.id < db.nextId

/-! ### Dictionary and store lemmas -/

theorem alookup_append {α : Type} (k : String) (d e : List (String × α)) :
    alookup k (d ++ e) =
      match alookup k d with
      | some v => some v
      | none => alookup k e := by
  induction d with
  | nil => simp [alookup]
  | cons kv rest ih =>
    obtain ⟨k', v⟩ := kv
    by_cases h : k' = k <;> simp [alookup, h, ih]

theorem alookup_setInPlace_self {α : Type} (d : List (String × α))
    (k : String) (v : α) (h : (alookup k d).isSome) :
    alookup k (setInPlace d k v) = some v := by
  induction d with
  | nil => simp [alookup] at h
  | cons kv rest ih =>
    obtain ⟨k', v'⟩ := kv
    by_cases hk : k' = k
    · simp [setInPlace, alookup, hk]
    · simp [alookup, hk] at h
      simp [setInPlace, alookup, hk, ih h]

theorem alookup_setInPlace_ne {α : Type} (d : List (String × α))
    (k k' : String) (v : α) (h : k' ≠ k) :
    alookup k' (setInPlace d k v) = alookup k' d := by
  induction d with
  | nil => simp [setInPlace]
  | cons kv rest ih =>
    obtain ⟨k'', v''⟩ := kv
    by_cases hk : k'' = k
    · subst hk
      simp [setInPlace, alookup, Ne.symm h]
    · simp [setInPlace, hk, alookup, ih]

theorem alookup_dictSet_self {α : Type} (d : List (String × α))
    (k : String) (v : α) : alookup k (dictSet d k v) = some v := by
  unfold dictSet
  by_cases h : (alookup k d).isSome
  · simp [h, alookup_setInPlace_self d k v h]
  · have hn : alookup k d = none := by
      cases hx : alookup k d with
      | none => rfl
      | some w => rw [hx] at h; simp at h
    simp [h, alookup_append, hn, alookup]

theorem alookup_dictSet_ne {α : Type} (d : List (String × α))
    (k k' : String) (v : α) (h : k' ≠ k) :
    alookup k' (dictSet d k v) = alookup k' d := by
  unfold dictSet
  by_cases hs : (alookup k d).isSome
  · simp [hs, alookup_setInPlace_ne d k k' v h]
  · simp only [hs, if_false, ite_false, Bool.false_eq_true]
    rw [alookup_append]
    cases hx : alookup k' d with
    | none => simp [alookup, Ne.symm h]
    | some w => simp

theorem alookup_adelete_self {α : Type} (k : String) (r : List (String × α)) :
    alookup k (adelete k r) = none := by
  induction r with
  | nil => simp [adelete, alookup]
  | cons kv rest ih =>
    obtain ⟨k', v⟩ := kv
    by_cases h : k' = k <;> simp [adelete, alookup, h, ih]

theorem alookup_adelete_ne {α : Type} (k k' : String) (r : List (String × α))
    (h : k' ≠ k) : alookup k' (adelete k r) = alookup k' r := by
  induction r with
  | nil => simp [adelete]
  | cons kv rest ih =>
    obtain ⟨k'', v⟩ := kv
    by_cases hk : k'' = k
    · subst hk
      simp [adelete, alookup, Ne.symm h, ih]
    · by_cases hk' : k'' = k' <;> simp [adelete, alookup, hk, hk', h, ih]

theorem alookup_restrictToKey {α : Type} (k : String) (r : List (String × α)) :
    alookup k (restrictToKey r k) = alookup k r := by
  induction r with
  | nil => simp [restrictToKey]
  | cons kv rest ih =>
    obtain ⟨k', v⟩ := kv
    by_cases h : k' = k <;> simp [restrictToKey, alookup, h, ih]

theorem findRowByName_append (l₁ l₂ : List Sensor) (n : String) :
    findRowByName (l₁ ++ l₂) n =
      match findRowByName l₁ n with
      | some r => some r
      | none => findRowByName l₂ n := by
  induction l₁ with
  | nil => simp [findRowByName]
  | cons r rest ih =>
    by_cases h : r.name = n <;> simp [findRowByName, h, ih]

theorem catalogFind_append (m₁ m₂ : Catalog) (id : Nat) :
    catalogFind (m₁ ++ m₂) id =
      match catalogFind m₁ id with
      | some d => some d
      | none => catalogFind m₂ id := by
  induction m₁ with
  | nil => simp [catalogFind]
  | cons d rest ih =>
    by_cases h : d.id_sensor = id <;> simp [catalogFind, h, ih]

/-! ### Concrete fixtures used by witness and counterexample theorems -/

/-- A creation request, the spec's round-trip scenario
(`createSensor("s1", d, 10.0, 20.0)`: longitude 10.0, latitude 20.0). -/
def sc0 : SensorCreate :=
  { name := "s1", latitude := 20.0, longitude := 10.0, type := "temp"
    mac_address := "00:11", manufacturer := "acme", model := "m1"
    serie_number := "sn1", firmware_version := "fw1" }

/-- Empty three-store state. -/
def st0 : AppState := { db := ⟨[], 0⟩, mongo := [], redis := [] }

/-- One identity row. -/
def row1 : Sensor := ⟨1, "s1"⟩

/-- Identity store holding exactly `row1`. -/
def db1 : IdentityStore := ⟨[row1], 2⟩

/-- Catalog document referencing the existing sensor 1. -/
def doc1 : CatalogDoc :=
  { id_sensor := 1, type := "temp", mac_address := "00:11"
    manufacturer := "acme", model := "m1", serie_number := "sn1"
    firmware_version := "fw1"
    location := { type := "Point", coordinates := [10.0, 20.0] } }

/-- Orphan catalog document: sensor id 5 exists in no identity store used
with it. -/
def doc5 : CatalogDoc := { doc1 with id_sensor := 5 }

/-- A telemetry payload, including a `name` field that collides with the
identity field of the same name. -/
def payload0 : Payload :=
  [("temperature", JVal.jnum 21), ("name", JVal.jstr "rogue")]

/-! ### Claim theorems -/

/-- Claim C1: in `create_sensor` the identity insert (with commit) happens
strictly before the device-catalog insert, so every execution — including
one stopping after the identity commit and before the catalog write —
preserves "every catalog document has a matching identity row"; the `k = 1`
crash point leaves the new identity row with no catalog document referencing
its id (an orphan identity, never an orphan catalog entry). -/
theorem create_sensor_identity_before_catalog (st : AppState) (sc : SensorCreate)
    (hwf : dbWF st.db) (hcc : catalogConsistent st.db st.mongo) :
    (∀ k, catalogConsistent (create_sensor_steps st sc k).db
        (create_sensor_steps st sc k).mongo)
    ∧ (create_sensor_steps st sc 1).mongo = st.mongo
    ∧ (create_sensor_steps st sc 1).db = (create_sensor st sc).1.db
    ∧ (⟨st.db.nextId, sc.name⟩ : Sensor) ∈ (create_sensor_steps st sc 1).db.rows
    ∧ (∀ doc ∈ (create_sensor_steps st sc 1).mongo,
        doc.id_sensor ≠ st.db.nextId) := by
  refine ⟨?_, rfl, rfl, ?_, ?_⟩
  · intro k
    match k with
    | 0 => exact hcc
    | 1 =>
      intro doc hdoc
      simp only [create_sensor_steps, identityCreate] at hdoc ⊢
      obtain ⟨row, hrow, hid⟩ := hcc doc hdoc
      exact ⟨row, List.mem_append_left _ hrow, hid⟩
    | n + 2 =>
      intro doc hdoc
      simp only [create_sensor_steps, create_sensor, identityCreate] at hdoc ⊢
      rcases List.mem_append.mp hdoc with hmem | hnew
      · obtain ⟨row, hrow, hid⟩ := hcc doc hmem
        exact ⟨row, List.mem_append_left _ hrow, hid⟩
      · have hd : doc = catalogDocOf st.db.nextId sc := by
          simpa using hnew
        subst hd
        exact ⟨⟨st.db.nextId, sc.name⟩,
          List.mem_append_right _ (by simp), rfl⟩
  · simp [create_sensor_steps, identityCreate]
  · intro doc hdoc
    simp only [create_sensor_steps] at hdoc
    obtain ⟨row, hrow, hid⟩ := hcc doc hdoc
    have hlt := hwf row hrow
    intro he
    rw [he] at hid
    omega

/-- Witness for C1 at the empty state: after only the identity commit the
catalog is still empty and the new identity row exists. -/
theorem create_sensor_identity_before_catalog_witness :
    (create_sensor_steps st0 sc0 1).mongo = st0.mongo
    ∧ (⟨st0.db.nextId, sc0.name⟩ : Sensor) ∈ (create_sensor_steps st0 sc0 1).db.rows := by
  have h := create_sensor_identity_before_catalog st0 sc0
    (by intro r hr; simp [st0] at hr)
    (by intro d hd; simp [st0] at hd)
  exact ⟨h.2.1, h.2.2.2.1⟩

/-- Claim C2: `get_data` has exactly three pairwise-distinct failure modes —
`notFound` (the 404) exactly when the identity lookup is absent,
`noReadingYet` (the `AttributeError` on `None.decode()`) exactly when the
identity exists but no value is stored under the sensor's key, and
`corruptReading` (the `json.JSONDecodeError`) exactly when a value is stored
but deserialization fails. -/
theorem get_data_three_failure_modes (redis : Redis) (db : IdentityStore)
    (id : Nat) :
    (get_data redis id db = .error .notFound ↔ get_sensor db id = none)
    ∧ (get_data redis id db = .error .noReadingYet ↔
        (get_sensor db id).isSome ∧ alookup (get_data_key id) redis = none)
    ∧ (get_data redis id db = .error .corruptReading ↔
        (get_sensor db id).isSome ∧
          ∃ v, alookup (get_data_key id) redis = some v ∧ jsonLoads v = none)
    ∧ GetDataError.notFound ≠ GetDataError.noReadingYet
    ∧ GetDataError.notFound ≠ GetDataError.corruptReading
    ∧ GetDataError.noReadingYet ≠ GetDataError.corruptReading := by
  refine ⟨?_, ?_, ?_, by decide, by decide, by decide⟩ <;>
    (cases hs : get_sensor db id with
     | none => simp [get_data, hs]
     | some row =>
       cases hr : alookup (get_data_key id) redis with
       | none => simp [get_data, hs, hr]
       | some v =>
         cases hj : jsonLoads v with
         | none => simp [get_data, hs, hr, hj]
         | some p => simp [get_data, hs, hr, hj])

/-- Witness for C2: on a store with sensor 1 and an empty cache, `get_data`
fails with `noReadingYet`, which is distinct from `notFound`. -/
theorem get_data_three_failure_modes_witness :
    get_data [] 1 db1 = .error .noReadingYet
    ∧ GetDataError.notFound ≠ GetDataError.noReadingYet := by
  have h := get_data_three_failure_modes [] db1 1
  exact ⟨(h.2.1).mpr (by exact ⟨by decide, by decide⟩), h.2.2.2.1⟩

/-- Claim C3 (code): on an orphan catalog document (id_sensor 5, empty
identity store) `get_sensors_near` does not skip the entry — the
`None.__dict__` access raises, aborting the whole query instead of returning
the remaining entries. The dead `if sensor is not None` guard in the source
shows skipping was the intent. -/
theorem get_sensors_near_orphan_aborts :
    get_sensors_near ⟨[], 0⟩ [] [doc5] = .error .attributeErrorNoneDict := rfl

/-- Claim C4: `delete_sensor` always performs the cache delete and the
catalog delete, no matter whether the identity row exists; if it does not,
the call fails with `notFound` with the cleanup already done and the
identity store untouched, and if it does, the row is removed and returned. -/
theorem delete_sensor_cleanup_before_check (st : AppState) (sensor_id : Nat) :
    (delete_sensor st sensor_id).1.redis
        = adelete (delete_sensor_key sensor_id) st.redis
    ∧ (delete_sensor st sensor_id).1.mongo = catalogDeleteOne st.mongo sensor_id
    ∧ (get_sensor st.db sensor_id = none →
        (delete_sensor st sensor_id).2 = .error .notFound
        ∧ (delete_sensor st sensor_id).1.db = st.db)
    ∧ (∀ row, get_sensor st.db sensor_id = some row →
        (delete_sensor st sensor_id).2 = .ok row
        ∧ (delete_sensor st sensor_id).1.db.rows
            = removeRowById st.db.rows sensor_id) := by
  cases hs : get_sensor st.db sensor_id with
  | none =>
    refine ⟨by simp [delete_sensor, hs], by simp [delete_sensor, hs], ?_, ?_⟩
    · intro _
      exact ⟨by simp [delete_sensor, hs], by simp [delete_sensor, hs]⟩
    · intro row hrow
      exact nomatch hrow
  | some row =>
    refine ⟨by simp [delete_sensor, hs], by simp [delete_sensor, hs], ?_, ?_⟩
    · intro hn
      exact nomatch hn
    · intro row' hrow'
      cases hrow'
      exact ⟨by simp [delete_sensor, hs], by simp [delete_sensor, hs]⟩

/-- Witness for C4 on the empty state: deleting a nonexistent sensor fails
with `notFound` and leaves the identity store unchanged (the cache and
catalog deletes having been issued as no-ops). -/
theorem delete_sensor_cleanup_before_check_witness :
    ((delete_sensor st0 7).2 = .error .notFound
      ∧ (delete_sensor st0 7).1.db = st0.db)
    ∧ (delete_sensor st0 7).1.redis = adelete (delete_sensor_key 7) st0.redis := by
  have h := delete_sensor_cleanup_before_check st0 7
  exact ⟨h.2.2.1 rfl, h.1⟩

/-- Claim C5 counterexample: sensor 1 exists in the identity store, the
cache holds no reading, and the catalog returned its document — the claim
says the entry is kept with the reading fields absent, but the query fails
(the `None.decode()` raise in `get_data` propagates out of the join loop). -/
theorem get_sensors_near_missing_reading_cex :
    get_sensors_near db1 [] [doc1] = .error (.dataError .noReadingYet) := rfl

/-- Claim C5 as amended: when the first catalog document's sensor has a
matching identity row but no stored live reading, `get_sensors_near` fails
with the `noReadingYet` error instead of keeping the entry without reading
fields. -/
theorem get_sensors_near_missing_reading_aborts (db : IdentityStore)
    (redis : Redis) (doc : CatalogDoc) (rest : List CatalogDoc) (row : Sensor)
    (hrow : get_sensor db doc.id_sensor = some row)
    (hread : alookup (get_data_key doc.id_sensor) redis = none) :
    get_sensors_near db redis (doc :: rest)
      = .error (.dataError .noReadingYet) := by
  simp [get_sensors_near, near_process, hrow, get_data, hread]

/-- Witness for the amended C5: sensor 1 exists, the cache is empty, and
the proximity query over its document (followed by another) aborts with
`noReadingYet`. -/
theorem get_sensors_near_missing_reading_aborts_witness :
    get_sensors_near db1 [] [doc1, doc5]
      = .error (.dataError .noReadingYet) :=
  get_sensors_near_missing_reading_aborts db1 [] doc1 [doc5] row1 rfl rfl

/-- Claim C6: for an existing sensor, `record_data` followed by `get_data`
returns the composite view whose `id` and `name` are the identity-store
values (identity winning any collision with the payload) and whose every
other key is looked up unchanged from the payload. -/
theorem record_then_get_roundtrip (redis : Redis) (db : IdentityStore)
    (id : Nat) (p : Payload) (row : Sensor)
    (hrow : get_sensor db id = some row) :
    get_data (record_data redis id p) id db
      = .ok (dictSet (dictSet p "id" (JVal.jnum row.id))
              "name" (JVal.jstr row.name))
    ∧ alookup "id" (dictSet (dictSet p "id" (JVal.jnum row.id))
        "name" (JVal.jstr row.name)) = some (JVal.jnum row.id)
    ∧ alookup "name" (dictSet (dictSet p "id" (JVal.jnum row.id))
        "name" (JVal.jstr row.name)) = some (JVal.jstr row.name)
    ∧ ∀ k, k ≠ "id" → k ≠ "name" →
        alookup k (dictSet (dictSet p "id" (JVal.jnum row.id))
          "name" (JVal.jstr row.name)) = alookup k p := by
  refine ⟨?_, ?_, ?_, ?_⟩
  · have hget : alookup (get_data_key id) (record_data redis id p)
        = some (RVal.serialized p) := by
      have hk : get_data_key id = record_data_key id := rfl
      rw [hk, record_data]
      exact alookup_dictSet_self _ _ _
    simp [get_data, hrow, hget, jsonLoads]
  · rw [alookup_dictSet_ne _ _ _ _ (by decide)]
    exact alookup_dictSet_self _ _ _
  · exact alookup_dictSet_self _ _ _
  · intro k hki hkn
    rw [alookup_dictSet_ne _ _ _ _ hkn, alookup_dictSet_ne _ _ _ _ hki]

/-- Witness for C6 on sensor 1 with a payload whose `name` field collides:
the view is the merged dict, and the non-colliding `temperature` field
passes through unchanged. -/
theorem record_then_get_roundtrip_witness :
    get_data (record_data [] 1 payload0) 1 db1
      = .ok (dictSet (dictSet payload0 "id" (JVal.jnum row1.id))
              "name" (JVal.jstr row1.name))
    ∧ alookup "temperature" (dictSet (dictSet payload0 "id" (JVal.jnum row1.id))
        "name" (JVal.jstr row1.name)) = alookup "temperature" payload0 := by
  have h := record_then_get_roundtrip [] db1 1 payload0 row1 rfl
  exact ⟨h.1, h.2.2.2 "temperature" (by decide) (by decide)⟩

/-- Claim C7: `create_sensor` stores the catalog document with `location` a
GeoJSON `"Point"` whose coordinates list longitude first, so a catalog
lookup for the new sensor returns `coordinates = [longitude, latitude]`. -/
theorem create_sensor_location_lon_lat (st : AppState) (sc : SensorCreate)
    (hfresh : catalogFind st.mongo st.db.nextId = none) :
    catalogFind (create_sensor st sc).1.mongo (create_sensor st sc).2.id
      = some (catalogDocOf st.db.nextId sc)
    ∧ (catalogDocOf st.db.nextId sc).location.coordinates
        = [sc.longitude, sc.latitude]
    ∧ (catalogDocOf st.db.nextId sc).location.type = "Point" := by
  refine ⟨?_, rfl, rfl⟩
  have h1 : (create_sensor st sc).2.id = st.db.nextId := rfl
  have h2 : (create_sensor st sc).1.mongo
      = st.mongo ++ [catalogDocOf st.db.nextId sc] := rfl
  rw [h1, h2, catalogFind_append, hfresh]
  simp [catalogFind, catalogDocOf]

/-- Witness for C7: the spec's round-trip scenario — sensor `"s1"` created
at longitude 10.0, latitude 20.0 on the empty state, then looked up in the
catalog, yields coordinates `[10.0, 20.0]`, longitude first. -/
theorem create_sensor_location_lon_lat_witness :
    catalogFind (create_sensor st0 sc0).1.mongo (create_sensor st0 sc0).2.id
      = some (catalogDocOf st0.db.nextId sc0)
    ∧ (catalogDocOf st0.db.nextId sc0).location.coordinates
        = [sc0.longitude, sc0.latitude] := by
  have h := create_sensor_location_lon_lat st0 sc0 rfl
  exact ⟨h.1, h.2.1⟩

/-- Claim C8: the three cache accesses — the write in `record_data`, the
read in `get_data` and the delete in `delete_sensor` — build one and the
same key string `sensor:` ++ id ++ `:data`; the write touches no other key,
the read consults no other key, and the delete removes exactly that key. -/
theorem live_reading_key_contract (id : Nat) (k : String) (redis : Redis)
    (p : Payload) (db : IdentityStore) (st : AppState) :
    record_data_key id = get_data_key id
    ∧ get_data_key id = delete_sensor_key id
    ∧ record_data_key id = "sensor:" ++ toString id ++ ":data"
    ∧ alookup k (record_data redis id p)
        = (if k = record_data_key id then some (RVal.serialized p)
           else alookup k redis)
    ∧ get_data redis id db = get_data (restrictToKey redis (get_data_key id)) id db
    ∧ (delete_sensor st id).1.redis = adelete (delete_sensor_key id) st.redis
    ∧ alookup k (adelete (delete_sensor_key id) st.redis)
        = (if k = delete_sensor_key id then none else alookup k st.redis) := by
  refine ⟨rfl, rfl, rfl, ?_, ?_, ?_, ?_⟩
  · by_cases hk : k = record_data_key id
    · subst hk
      simp [record_data, alookup_dictSet_self]
    · simp [hk, record_data, alookup_dictSet_ne _ _ _ _ hk]
  · unfold get_data
    rw [alookup_restrictToKey]
  · cases hs : get_sensor st.db id <;> simp [delete_sensor, hs]
  · by_cases hk : k = delete_sensor_key id
    · subst hk
      simp [alookup_adelete_self]
    · simp [hk, alookup_adelete_ne _ _ _ hk]

/-- Claim C9: `record_data` writes the serialized payload under the sensor's
key and touches nothing else — the identity store and the catalog pass
through unchanged whatever they contain (in particular for a sensor id that
exists nowhere), and no cache key other than the sensor's is affected. -/
theorem record_data_cache_only (db : IdentityStore) (mongo : Catalog)
    (redis : Redis) (sensor_id : Nat) (p : Payload) (k : String) :
    record_data_app ⟨db, mongo, redis⟩ sensor_id p
      = ⟨db, mongo, record_data redis sensor_id p⟩
    ∧ (record_data_app ⟨db, mongo, redis⟩ sensor_id p).db = db
    ∧ (record_data_app ⟨db, mongo, redis⟩ sensor_id p).mongo = mongo
    ∧ alookup (record_data_key sensor_id) (record_data redis sensor_id p)
        = some (RVal.serialized p)
    ∧ (k ≠ record_data_key sensor_id →
        alookup k (record_data redis sensor_id p) = alookup k redis) := by
  refine ⟨rfl, rfl, rfl, ?_, ?_⟩
  · exact alookup_dictSet_self _ _ _
  · intro hk
    exact alookup_dictSet_ne _ _ _ _ hk

/-- Witness for C9: recording against the empty identity store (sensor 9
exists nowhere) succeeds, leaves the other stores empty, and leaves the
unrelated key `"x"` unbound. -/
theorem record_data_cache_only_witness :
    record_data_app ⟨⟨[], 0⟩, [], []⟩ 9 payload0
      = ⟨⟨[], 0⟩, [], record_data [] 9 payload0⟩
    ∧ alookup "x" (record_data [] 9 payload0) = alookup "x" [] := by
  have h := record_data_cache_only ⟨[], 0⟩ [] [] 9 payload0 "x"
  exact ⟨h.1, h.2.2.2.2 (by decide)⟩

/-- Claim C10: creating a second sensor with an already-used name succeeds
and yields a fresh store-assigned id distinct from the first (and from every
pre-existing row), leaving two rows sharing one name; a lookup by that name
returns only the first row, so name is not a reliable key. -/
theorem create_sensor_duplicate_name (st : AppState) (sc sc' : SensorCreate)
    (hname : sc'.name = sc.name) (hwf : dbWF st.db) :
    (create_sensor (create_sensor st sc).1 sc').2.id ≠ (create_sensor st sc).2.id
    ∧ (create_sensor st sc).2.name = sc.name
    ∧ (create_sensor (create_sensor st sc).1 sc').2.name = sc.name
    ∧ (create_sensor st sc).2 ∈ (create_sensor (create_sensor st sc).1 sc').1.db.rows
    ∧ (create_sensor (create_sensor st sc).1 sc').2
        ∈ (create_sensor (create_sensor st sc).1 sc').1.db.rows
    ∧ (∀ row ∈ st.db.rows, row.id ≠ (create_sensor st sc).2.id)
    ∧ (get_sensor_by_name st.db sc.name = none →
        get_sensor_by_name (create_sensor (create_sensor st sc).1 sc').1.db sc.name
          = some (create_sensor st sc).2) := by
  refine ⟨?_, rfl, hname, ?_, ?_, ?_, ?_⟩
  · simp [create_sensor, identityCreate]
  · simp [create_sensor, identityCreate, List.mem_append]
  · simp [create_sensor, identityCreate, List.mem_append]
  · intro row hrow
    have hlt := hwf row hrow
    show row.id ≠ st.db.nextId
    omega
  · intro hbn
    show findRowByName ((st.db.rows ++ [⟨st.db.nextId, sc.name⟩])
        ++ [⟨st.db.nextId + 1, sc'.name⟩]) sc.name = _
    rw [findRowByName_append, findRowByName_append]
    have hbn' : findRowByName st.db.rows sc.name = none := hbn
    rw [hbn']
    simp [findRowByName]
    rfl

/-- Witness for C10: two creations of `"s1"` on the empty state yield rows
with distinct ids, and the lookup by name finds the first row. -/
theorem create_sensor_duplicate_name_witness :
    (create_sensor (create_sensor st0 sc0).1 sc0).2.id
      ≠ (create_sensor st0 sc0).2.id
    ∧ get_sensor_by_name (create_sensor (create_sensor st0 sc0).1 sc0).1.db sc0.name
        = some (create_sensor st0 sc0).2 := by
  have h := create_sensor_duplicate_name st0 sc0 sc0 rfl
    (by intro r hr; simp [st0] at hr)
  exact ⟨h.1, h.2.2.2.2.2.2 rfl⟩

end SensorRepo
